/-
Verification of the message-processing, retry/backoff and dead-letter logic of
the instagram-scraper worker (src/services/instagram-scraper/src/worker.py,
instagram_crawler.py, models.py), shallowly embedded in Lean.

Modelling conventions:
- Python strings are Lean `String`s; python slicing/`in`/`split` are re-implemented
  structurally over `List Char` so that all definitions reduce in the kernel.
- JSON values are the inductive `Json`; numeric JSON values arising in this worker
  (counts, epoch seconds) are modelled as `Int`.
- The inbound AMQP body is modelled by `Body`: either bytes whose UTF-8 decode and
  `json.loads` succeed with a given JSON value, or bytes for which `json.loads`
  raises (carrying the raised error text).
- The broker is modelled by `Broker`: for each of the three publish targets,
  whether a `basic_publish` to it succeeds, plus the error texts of the raised
  exceptions when it fails.
- The instaloader fetch (`Post.from_shortcode` and field extraction, an external
  library) is modelled as an oracle `FetchResult`: it either yields the extracted
  record or raises a `ConnectionException` or some other exception.
- Side effects of processing one delivery are recorded as a trace `List Event`.
- `time.time()` is modelled by a single `now` parameter per processed message.
-/
import Mathlib

namespace Recify

/-! ## Python string primitives, re-implemented structurally -/

/-- `beginsWith p s` : the char list `s` starts with `p`. -/
def beginsWith : List Char → List Char → Bool
  | [], _ => true
  | _ :: _, [] => false
  | a :: ps, b :: ss => a == b && beginsWith ps ss

/-- Python `pat in s` on char lists. -/
def inChars (pat : List Char) : List Char → Bool
  | [] => beginsWith pat []
  | c :: cs => beginsWith pat (c :: cs) || inChars pat cs

/-- Python `pat in s` on strings. -/
def strIn (pat s : String) : Bool := inChars pat.data s.data

/-- Fuel-driven scanner implementing python `str.split(pat)` (nonempty `pat`). -/
def pySplitAux (pat : List Char) : Nat → List Char → List Char → List (List Char)
  | 0, acc, s => [acc.reverse ++ s]
  | _ + 1, acc, [] => [acc.reverse]
  | fuel + 1, acc, c :: cs =>
    if beginsWith pat (c :: cs) then
      acc.reverse :: pySplitAux pat fuel [] (List.drop pat.length (c :: cs))
    else
      pySplitAux pat fuel (c :: acc) cs

/-- Python `s.split(pat)` on char lists (for a nonempty separator `pat`). -/
def pySplit (pat s : List Char) : List (List Char) := pySplitAux pat (s.length + 1) [] s

/-- Python `s.lower()` (ASCII case folding suffices for the patterns used here). -/
def pyLower (s : String) : String := String.mk (s.data.map Char.toLower)

/-- Python `s[:n]` (slicing by code points). -/
def pyTruncate (s : String) (n : Nat) : String := String.mk (s.data.take n)

/-! ## JSON values -/

/-- JSON values as produced by `json.loads`.  Object fields are listed in
insertion order; `json.loads` keeps the last occurrence of a duplicate key. -/
inductive Json where
  | null : Json
  | bool (b : Bool) : Json
  | num (n : Int) : Json
  | str (s : String) : Json
  | arr (xs : List Json) : Json
  | obj (fields : List (String × Json)) : Json

/-- Python `type(v)` rendering for the non-dict, non-handled JSON values
(the exact text interpolated by `worker.py` into its error messages). -/
def pyTypeName : Json → String
  | .null => "<class \x27NoneType\x27>"
  | .bool _ => "<class \x27bool\x27>"
  | .num _ => "<class \x27int\x27>"
  | .str _ => "<class \x27str\x27>"
  | .arr _ => "<class \x27list\x27>"
  | .obj _ => "<class \x27dict\x27>"

/-- Python dict lookup on a JSON object's field list (last duplicate wins,
matching `json.loads` semantics). -/
def dictGet (fields : List (String × Json)) (k : String) : Option Json :=
  (fields.reverse.find? (fun p => p.1 == k)).map (fun p => p.2)

/-! ## Datetimes (`post.date_utc`, `timestamp.isoformat()`) -/

/-- A python `datetime` at second resolution (the worker's timestamps carry no
sub-second component; the round-trip claim is about losslessness to the second). -/
structure PyDateTime where
  year : Nat
  month : Nat
  day : Nat
  hour : Nat
  minute : Nat
  second : Nat
deriving DecidableEq

/-- The field bounds python's `datetime` constructor enforces. -/
def PyDateTime.valid (t : PyDateTime) : Prop :=
  1 ≤ t.year ∧ t.year ≤ 9999 ∧ 1 ≤ t.month ∧ t.month ≤ 12 ∧ 1 ≤ t.day ∧
    t.day ≤ 31 ∧ t.hour ≤ 23 ∧ t.minute ≤ 59 ∧ t.second ≤ 59

instance (t : PyDateTime) : Decidable t.valid := by
  unfold PyDateTime.valid; infer_instance

/-- The ASCII digit character for `d`. -/
def digitChar (d : Nat) : Char := Char.ofNat (48 + d)

/-- Zero-padded two-digit decimal rendering (`%02d`). -/
def twoDigits (n : Nat) : List Char := [digitChar (n / 10 % 10), digitChar (n % 10)]

/-- Zero-padded four-digit decimal rendering (`%04d`). -/
def fourDigits (n : Nat) : List Char :=
  [digitChar (n / 1000 % 10), digitChar (n / 100 % 10), digitChar (n / 10 % 10),
    digitChar (n % 10)]

/-- Python `datetime.isoformat()` for a datetime with no sub-second component:
`YYYY-MM-DDTHH:MM:SS`. -/
def isoformat (t : PyDateTime) : String :=
  String.mk (fourDigits t.year ++ '-' :: twoDigits t.month ++ '-' :: twoDigits t.day ++
    'T' :: twoDigits t.hour ++ ':' :: twoDigits t.minute ++ ':' :: twoDigits t.second)

/-- The numeric value of an ASCII digit character, if it is one. -/
def digitVal (c : Char) : Option Nat :=
  if 48 ≤ c.toNat ∧ c.toNat ≤ 57 then some (c.toNat - 48) else none

/-- Modelled from the spec: the result-body decoder is not part of src/ (only the
worker-side encoder is); §4.1 says decoding accepts ISO-8601 timestamp strings.
This parses the fixed-width `YYYY-MM-DDTHH:MM:SS` shape back to a datetime. -/
def parseIso (s : String) : Option PyDateTime :=
  match s.data with
  | [y1, y2, y3, y4, a, m1, m2, b, d1, d2, c, h1, h2, d, mi1, mi2, e, s1, s2] =>
    if a == '-' && b == '-' && c == 'T' && d == ':' && e == ':' then
      match digitVal y1, digitVal y2, digitVal y3, digitVal y4, digitVal m1,
          digitVal m2, digitVal d1, digitVal d2, digitVal h1, digitVal h2,
          digitVal mi1, digitVal mi2, digitVal s1, digitVal s2 with
      | some v1, some v2, some v3, some v4, some w1, some w2, some x1, some x2,
          some u1, some u2, some t1, some t2, some r1, some r2 =>
        some ⟨((v1 * 10 + v2) * 10 + v3) * 10 + v4, w1 * 10 + w2, x1 * 10 + x2,
          u1 * 10 + u2, t1 * 10 + t2, r1 * 10 + r2⟩
      | _, _, _, _, _, _, _, _, _, _, _, _, _, _ => none
    else none
  | _ => none

/-! ## Data model (models.py) -/

/-- `RawRecipeData` (models.py): the extracted record published to the result
queue.  Count fields are `Option Int` (python `Optional[int]`). -/
structure RawRecipeData where
  url : String
  caption : String
  media_urls : List String
  author : String
  timestamp : PyDateTime
  hashtags : List String
  mentions : List String
  likes_count : Option Int
  comments_count : Option Int
  author_top_comment : Option String
deriving DecidableEq

/-- `CrawlRequest` (models.py) after pydantic validation. -/
structure CrawlRequest where
  instagram_url : String
  request_id : Option String
  priority : Int
deriving DecidableEq

/-! ## Crawler (instagram_crawler.py) -/

/-- The python exception classes that matter to `process_message`'s handlers:
`ValueError` (and subclasses, incl. pydantic `ValidationError` and
`json.JSONDecodeError`), `InstagramRateLimitError`, `instaloader`'s
`ConnectionException`, and everything else (`Exception`). -/
inductive PyError where
  | valueError (msg : String)
  | rateLimitError (msg : String)
  | connectionException (msg : String)
  | genericError (msg : String)
deriving DecidableEq

/-- Outcome of the external instaloader fetch (`Post.from_shortcode` plus field
extraction): the extracted record (sans the `url` field, which the source sets
from the request), or a raised `ConnectionException`, or any other exception. -/
inductive FetchResult where
  | ok (rec : RawRecipeData)
  | connectionException (msg : String)
  | otherError (msg : String)

/-- `InstagramCrawler._extract_shortcode`: split on `/p/` or `/reel/`, else
raise `ValueError`. -/
def extract_shortcode (url : String) : Except PyError String :=
  if strIn "/p/" url then
    .ok (String.mk (((pySplit "/p/".data url.data).getLastD []).takeWhile (fun c => c ≠ '/')))
  else if strIn "/reel/" url then
    .ok (String.mk (((pySplit "/reel/".data url.data).getLastD []).takeWhile (fun c => c ≠ '/')))
  else
    .error (.valueError ("Invalid Instagram URL format: " ++ url))

/-- `InstagramCrawler.extract_post_data`: try the shortcode extraction and the
fetch; classify `ConnectionException`s with `401`/`403`/`rate limit` in their
text as `InstagramRateLimitError`, re-wrap other `ConnectionException`s as
`Exception("Instagram connection error: ...")`, and re-wrap every other
exception — including the `ValueError` from `_extract_shortcode` — as
`Exception("Failed to extract Instagram post: ...")`. -/
def extract_post_data (url : String) (net : FetchResult) : Except PyError RawRecipeData :=
  let tryBlock : Except PyError RawRecipeData :=
    match extract_shortcode url with
    | .error e => .error e
    | .ok _ =>
      match net with
      | .ok rec => .ok { rec with url := url }
      | .connectionException m => .error (.connectionException m)
      | .otherError m => .error (.genericError m)
  match tryBlock with
  | .ok r => .ok r
  | .error (.connectionException m) =>
    if strIn "401" m || strIn "403" m || strIn "rate limit" (pyLower m) then
      .error (.rateLimitError ("Instagram rate limit: " ++ m))
    else
      .error (.genericError ("Instagram connection error: " ++ m))
  | .error (.valueError m) => .error (.genericError ("Failed to extract Instagram post: " ++ m))
  | .error (.genericError m) => .error (.genericError ("Failed to extract Instagram post: " ++ m))
  | .error (.rateLimitError m) => .error (.rateLimitError m)

/-! ## Message codec: envelope normalization and pydantic validation -/

/-- The inline envelope handling of `process_message` (worker.py lines 111-122):
accept a dict; accept a list whose first element is a dict, taking that first
element; otherwise raise `ValueError` with the source's message text. -/
def normalize_envelope : Json → Except String (List (String × Json))
  | .arr xs =>
    match xs with
    | .obj f :: _ => .ok f
    | _ => .error "Invalid message format: expected dict or list of dicts, got <class \x27list\x27>"
  | .obj f => .ok f
  | j => .error ("Invalid message format: expected dict or list, got " ++ pyTypeName j)

/-- Pydantic `HttpUrl` acceptance, modelled at the boundary of the external
pydantic library: an absolute `http(s)` URL with a nonempty host.  Pydantic's
URL normalization is the identity on the already-normalized URLs this worker
sees. -/
def isHttpUrl (s : String) : Bool :=
  (beginsWith "http://".data s.data && !((pySplit "/".data (s.data.drop 7)).headD []).isEmpty)
    || (beginsWith "https://".data s.data && !((pySplit "/".data (s.data.drop 8)).headD []).isEmpty)

/-- `CrawlRequest(**request_data)`: pydantic validation of the request dict.
`instagram_url` is required and must be an `HttpUrl`; `request_id` is an
optional string; `priority` an int defaulting to 1; extra fields are ignored.
Pydantic's `ValidationError` is a `ValueError`; its exact message text is not
observed by any claim and is abbreviated here.  Lax coercions (e.g. numeric
strings for `priority`) are not exercised by any claim and are not modelled. -/
def crawlRequest_validate (f : List (String × Json)) : Except String CrawlRequest :=
  match dictGet f "instagram_url" with
  | some (.str s) =>
    if isHttpUrl s then
      match dictGet f "request_id" with
      | none =>
        match dictGet f "priority" with
        | none => .ok ⟨s, none, 1⟩
        | some (.num n) => .ok ⟨s, none, n⟩
        | some _ => .error "1 validation error for CrawlRequest: priority"
      | some .null =>
        match dictGet f "priority" with
        | none => .ok ⟨s, none, 1⟩
        | some (.num n) => .ok ⟨s, none, n⟩
        | some _ => .error "1 validation error for CrawlRequest: priority"
      | some (.str rid) =>
        match dictGet f "priority" with
        | none => .ok ⟨s, some rid, 1⟩
        | some (.num n) => .ok ⟨s, some rid, n⟩
        | some _ => .error "1 validation error for CrawlRequest: priority"
      | some _ => .error "1 validation error for CrawlRequest: request_id"
    else .error "1 validation error for CrawlRequest: instagram_url"
  | some _ => .error "1 validation error for CrawlRequest: instagram_url"
  | none => .error "1 validation error for CrawlRequest: instagram_url"

/-- The full decode pipeline of `process_message` on a parsed JSON body:
envelope normalization followed by `CrawlRequest` validation.  Both failure
cases raise `ValueError`s carrying the error text. -/
def decode_request (raw : Json) : Except String CrawlRequest :=
  match normalize_envelope raw with
  | .error e => .error e
  | .ok f => crawlRequest_validate f

/-! ## Worker (worker.py) -/

/-- The retry-bookkeeping header dict, projected onto the keys the worker reads
and writes (`x-retry-count`, `x-first-attempt`, `x-last-error`, `x-delay`).
Other keys pass through the worker untouched and unobserved. -/
structure Headers where
  retryCount : Option Nat
  firstAttempt : Option Int
  lastError : Option String
  delay : Option Nat
deriving DecidableEq

/-- The header dict `{}` (also standing for an absent key set). -/
def Headers.empty : Headers := ⟨none, none, none, none⟩

/-- An inbound message body: either bytes whose UTF-8 decode and `json.loads`
both succeed, yielding `j`, or bytes for which they raise (a
`UnicodeDecodeError`/`JSONDecodeError`, both `ValueError` subclasses, with error
text `msg`). -/
inductive Body where
  | valid (j : Json)
  | invalid (raw : String) (msg : String)

/-- The result of `json.loads(body.decode())`, `none` when it raises. -/
def jsonLoads : Body → Option Json
  | .valid j => some j
  | .invalid _ _ => none

/-- The error text of the exception `json.loads(body.decode())` raises
(meaningful only for invalid bodies). -/
def jsonLoadsErr : Body → String
  | .valid _ => ""
  | .invalid _ msg => msg

/-- Whether each `basic_publish` target accepts the publish, and the error
texts of the exceptions raised when the result-queue or delayed-exchange
publish fails (those texts feed back into the worker's bookkeeping). -/
structure Broker where
  resultOk : Bool
  retryOk : Bool
  deadOk : Bool
  resultErr : String
  retryErr : String

/-- One observable side effect of processing a delivery: a publish attempt to
the result queue / delayed exchange / dead-letter queue (with whether the
broker accepted it), or the `basic_ack` of the delivery. -/
inductive Event where
  | publishResult (msg : Json) (ok : Bool)
  | publishRetry (body : Body) (headers : Headers) (ok : Bool)
  | publishDeadLetter (msg : Json) (ok : Bool)
  | ack

/-- `CrawlWorker._get_retry_count`: the `x-retry-count` header, defaulting
to 0.  `props` models `properties.headers` (`none` for a `None` dict). -/
def get_retry_count (props : Option Headers) : Nat :=
  match props with
  | some h => h.retryCount.getD 0
  | none => 0

/-- Long (rate-limit) delay table, in milliseconds: 5 min, 15 min, 1 h. -/
def longDelays : List Nat := [300000, 900000, 3600000]

/-- Short (transient) delay table, in milliseconds: 30 s, 5 min, 15 min. -/
def shortDelays : List Nat := [30000, 300000, 900000]

/-- Whether `_schedule_retry` was called with `delay_type='long'` or `'short'`. -/
inductive DelayType where
  | long
  | short
deriving DecidableEq

/-- The delay chosen by `_schedule_retry` (worker.py lines 190-195):
`[...][min(retry_count, 2)]`. -/
def delay_ms (dt : DelayType) (retry_count : Nat) : Nat :=
  match dt with
  | .long => longDelays.getD (min retry_count 2) 0
  | .short => shortDelays.getD (min retry_count 2) 0

/-- `max_retries` (worker.py line 182). -/
def max_retries : Nat := 3

/-- The header update of `_schedule_retry` (worker.py lines 197-202):
`x-retry-count := retry_count + 1`; `x-first-attempt := get(x-first-attempt, now)`;
`x-last-error := error[:500]`; `x-delay := delay_ms`. -/
def retry_headers (props : Option Headers) (retry_count : Nat) (dt : DelayType)
    (error : String) (now : Int) : Headers :=
  let h₀ := props.getD Headers.empty
  { retryCount := some (retry_count + 1)
    firstAttempt := some (h₀.firstAttempt.getD now)
    lastError := some (pyTruncate error 500)
    delay := some (delay_ms dt retry_count) }

/-- The failure record published to the dead-letter queue
(worker.py lines 235-239). -/
def dlMsg (j : Json) (error_msg : String) (now : Int) : Json :=
  .obj [("original_message", j), ("error", .str error_msg), ("timestamp", .num now)]

/-- `CrawlWorker._move_to_failed_queue`: re-parse the original body, build
`{original_message, error, timestamp}` and publish it to `crawl_requests_failed`;
any exception (including the re-parse failing on an undecodable body, and a
rejected publish) is caught and only logged. -/
def move_to_failed_queue (br : Broker) (body : Body) (error_msg : String)
    (now : Int) : List Event :=
  match jsonLoads body with
  | none => []
  | some j => [.publishDeadLetter (dlMsg j error_msg now) br.deadOk]

/-- `CrawlWorker._schedule_retry`: dead-letter once `retry_count ≥ max_retries`;
otherwise publish the original body to the delayed exchange with updated
headers, falling back to the dead-letter queue if that publish raises. -/
def schedule_retry (br : Broker) (body : Body) (props : Option Headers)
    (retry_count : Nat) (dt : DelayType) (error : String) (now : Int) : List Event :=
  if retry_count ≥ max_retries then
    move_to_failed_queue br body ("Max retries exceeded. Last error: " ++ error) now
  else
    .publishRetry body (retry_headers props retry_count dt error now) br.retryOk ::
      (if br.retryOk then []
       else move_to_failed_queue br body ("Retry scheduling failed: " ++ br.retryErr) now)

/-- `model_dump()` plus the explicit `isoformat` conversion in
`publish_raw_recipe_data` (worker.py lines 83-84, models.py field order). -/
def encodeRawRecipeData (r : RawRecipeData) : Json :=
  .obj [("url", .str r.url), ("caption", .str r.caption),
    ("media_urls", .arr (r.media_urls.map Json.str)),
    ("author", .str r.author),
    ("timestamp", .str (isoformat r.timestamp)),
    ("hashtags", .arr (r.hashtags.map Json.str)),
    ("mentions", .arr (r.mentions.map Json.str)),
    ("likes_count", (r.likes_count.map Json.num).getD .null),
    ("comments_count", (r.comments_count.map Json.num).getD .null),
    ("author_top_comment", (r.author_top_comment.map Json.str).getD .null)]

/-- `CrawlWorker.process_message`: parse, normalize, validate, extract, publish,
with the source's four terminal paths: success / `InstagramRateLimitError` →
long retry / `ValueError` → dead-letter / other `Exception` → short retry; every
path ends in `basic_ack`.  A result-publish failure re-raises into the generic
`Exception` handler (worker.py lines 99-101, 156-163). -/
def process_message (br : Broker) (body : Body) (props : Option Headers)
    (net : FetchResult) (now : Int) : List Event :=
  match jsonLoads body with
  | none => move_to_failed_queue br body (jsonLoadsErr body) now ++ [.ack]
  | some raw =>
    match decode_request raw with
    | .error e => move_to_failed_queue br body e now ++ [.ack]
    | .ok req =>
      match extract_post_data req.instagram_url net with
      | .ok rec =>
        if br.resultOk then [.publishResult (encodeRawRecipeData rec) true, .ack]
        else
          .publishResult (encodeRawRecipeData rec) false ::
            (schedule_retry br body props (get_retry_count props) .short br.resultErr now
              ++ [.ack])
      | .error (.rateLimitError m) =>
        schedule_retry br body props (get_retry_count props) .long m now ++ [.ack]
      | .error (.valueError m) => move_to_failed_queue br body m now ++ [.ack]
      | .error (.connectionException m) =>
        schedule_retry br body props (get_retry_count props) .short m now ++ [.ack]
      | .error (.genericError m) =>
        schedule_retry br body props (get_retry_count props) .short m now ++ [.ack]

/-! ## Result-body decoding (modelled from the spec, §4.1) -/

/-- A JSON string field. -/
def asStr : Option Json → Option String
  | some (.str s) => some s
  | _ => none

/-- A JSON array of strings, elementwise. -/
def decodeStrs : List Json → Option (List String)
  | [] => some []
  | .str s :: rest => (decodeStrs rest).map (fun l => s :: l)
  | _ => none

/-- A JSON array-of-strings field. -/
def decodeStrList : Option Json → Option (List String)
  | some (.arr xs) => decodeStrs xs
  | _ => none

/-- A nullable JSON int field. -/
def decodeOptInt : Option Json → Option (Option Int)
  | some (.num n) => some (some n)
  | some .null => some none
  | _ => none

/-- A nullable JSON string field. -/
def decodeOptStr : Option Json → Option (Option String)
  | some (.str s) => some (some s)
  | some .null => some none
  | _ => none

/-- Modelled from the spec: src/ contains no decoder for the result-queue body
(the worker only encodes; downstream consumers are external), so this follows
§4.1: the body is a JSON object carrying every `ExtractedRecord` field, with
`timestamp` decoded from its ISO-8601 string. -/
def decodeRawRecipeData (j : Json) : Option RawRecipeData :=
  match j with
  | .obj f => do
    let url ← asStr (dictGet f "url")
    let caption ← asStr (dictGet f "caption")
    let media ← decodeStrList (dictGet f "media_urls")
    let author ← asStr (dictGet f "author")
    let tsStr ← asStr (dictGet f "timestamp")
    let ts ← parseIso tsStr
    let hashtags ← decodeStrList (dictGet f "hashtags")
    let mentions ← decodeStrList (dictGet f "mentions")
    let likes ← decodeOptInt (dictGet f "likes_count")
    let comments ← decodeOptInt (dictGet f "comments_count")
    let topc ← decodeOptStr (dictGet f "author_top_comment")
    some ⟨url, caption, media, author, ts, hashtags, mentions, likes, comments, topc⟩
  | _ => none

/-! ## Concrete fixtures used by the evaluation theorems -/

/-- A broker that accepts every publish. -/
def allOkBroker : Broker := ⟨true, true, true, "", ""⟩

/-- A concrete extracted record, as the fetch oracle would yield it. -/
def sampleRec : RawRecipeData :=
  ⟨"", "Pasta! #recipe @chef", ["https://cdn.example/img1.jpg"], "chef_test",
    ⟨2024, 1, 18, 9, 0, 0⟩, ["recipe"], ["chef"], some 10, some 2, some "Use fresh basil"⟩

/-- The canonical request body `{"instagram_url": "https://www.instagram.com/p/ABC/"}`. -/
def igFields : List (String × Json) :=
  [("instagram_url", .str "https://www.instagram.com/p/ABC/")]

/-- The spec's facebook-URL request body: syntactically a valid `HttpUrl`, but
with a path that is neither `/p/{id}` nor `/reel/{id}`. -/
def fbBody : Body := .valid (.obj [("instagram_url", .str "https://www.facebook.com/x")])

/-! ## Trace observations -/

/-- Whether an event is the acknowledgement. -/
def isAck : Event → Bool
  | .ack => true
  | _ => false

/-- Whether an event is a publish attempt (to any of the three targets). -/
def isPublish : Event → Bool
  | .ack => false
  | _ => true

/-- Whether an event is a publish attempt to the dead-letter queue. -/
def isDeadLetter : Event → Bool
  | .publishDeadLetter _ _ => true
  | _ => false

/-! ## Helper lemmas about the worker's building blocks -/

theorem move_to_failed_queue_valid (br : Broker) (j : Json) (e : String) (now : Int) :
    move_to_failed_queue br (.valid j) e now = [.publishDeadLetter (dlMsg j e now) br.deadOk] :=
  rfl

theorem move_to_failed_queue_invalid (br : Broker) (r m e : String) (now : Int) :
    move_to_failed_queue br (.invalid r m) e now = [] :=
  rfl

theorem mem_move_to_failed_queue {br : Broker} {body : Body} {e : String} {now : Int}
    {ev : Event} (h : ev ∈ move_to_failed_queue br body e now) :
    ∃ m ok, ev = .publishDeadLetter m ok := by
  cases body with
  | valid j =>
    rw [move_to_failed_queue_valid] at h
    simp only [List.mem_singleton] at h
    exact ⟨_, _, h⟩
  | invalid r m =>
    rw [move_to_failed_queue_invalid] at h
    exact absurd h (List.not_mem_nil ev)

theorem schedule_retry_low {br : Broker} {body : Body} {props : Option Headers}
    {rc : Nat} (dt : DelayType) (e : String) (now : Int) (h : rc < max_retries) :
    schedule_retry br body props rc dt e now =
      .publishRetry body (retry_headers props rc dt e now) br.retryOk ::
        (if br.retryOk then []
         else move_to_failed_queue br body ("Retry scheduling failed: " ++ br.retryErr) now) := by
  rw [schedule_retry, if_neg (by omega)]

theorem schedule_retry_high {br : Broker} {body : Body} {props : Option Headers}
    {rc : Nat} (dt : DelayType) (e : String) (now : Int) (h : max_retries ≤ rc) :
    schedule_retry br body props rc dt e now =
      move_to_failed_queue br body ("Max retries exceeded. Last error: " ++ e) now := by
  rw [schedule_retry, if_pos h]

theorem mem_schedule_retry {br : Broker} {body : Body} {props : Option Headers}
    {rc : Nat} {dt : DelayType} {e : String} {now : Int} {ev : Event}
    (h : ev ∈ schedule_retry br body props rc dt e now) :
    (∃ m ok, ev = .publishDeadLetter m ok) ∨
      (rc < max_retries ∧ ev = .publishRetry body (retry_headers props rc dt e now) br.retryOk) := by
  by_cases hrc : rc < max_retries
  · rw [schedule_retry_low dt e now hrc] at h
    rcases List.mem_cons.mp h with h | h
    · exact Or.inr ⟨hrc, h⟩
    · by_cases hok : br.retryOk
      · rw [if_pos hok] at h
        exact absurd h (List.not_mem_nil ev)
      · rw [if_neg hok] at h
        exact Or.inl (mem_move_to_failed_queue h)
  · rw [schedule_retry_high dt e now (by omega)] at h
    exact Or.inl (mem_move_to_failed_queue h)

theorem countP_isAck_move_to_failed_queue (br : Broker) (body : Body) (e : String)
    (now : Int) : (move_to_failed_queue br body e now).countP (fun ev => isAck ev) = 0 := by
  cases body with
  | valid j => rw [move_to_failed_queue_valid]; rfl
  | invalid r m => rw [move_to_failed_queue_invalid]; rfl

theorem countP_isAck_schedule_retry (br : Broker) (body : Body) (props : Option Headers)
    (rc : Nat) (dt : DelayType) (e : String) (now : Int) :
    (schedule_retry br body props rc dt e now).countP (fun ev => isAck ev) = 0 := by
  by_cases hrc : rc < max_retries
  · rw [schedule_retry_low dt e now hrc]
    by_cases hok : br.retryOk
    · rw [if_pos hok]; rfl
    · rw [if_neg hok, List.countP_cons_of_neg _ _ (by simp [isAck])]
      exact countP_isAck_move_to_failed_queue ..
  · rw [schedule_retry_high dt e now (by omega)]
    exact countP_isAck_move_to_failed_queue ..

/-! ## Claims -/

/-- C1: For a `RateLimited` failure (handled with `delay_type='long'`), the
retry decision follows the long tiered backoff indexed by `min(attempt_count, 2)`
into `[5 min, 15 min, 60 min]` = `[300000, 900000, 3600000]` ms: attempts 0, 1, 2
are republished to the delayed exchange with `x-delay` 300000, 900000 and
3600000 ms respectively, and every `attempt_count ≥ max_retries` (3) is
dead-lettered instead.  The last conjunct ties the `'long'` delay type to the
rate-limited classification inside `process_message`. -/
theorem c1_rate_limited_backoff :
    (∀ props err now, (retry_headers props 0 .long err now).delay = some 300000) ∧
    (∀ props err now, (retry_headers props 1 .long err now).delay = some 900000) ∧
    (∀ props err now, (retry_headers props 2 .long err now).delay = some 3600000) ∧
    (∀ rc, delay_ms .long rc = longDelays.getD (min rc 2) 0) ∧
    (∀ br body props rc err now, rc < max_retries →
      schedule_retry br body props rc .long err now =
        .publishRetry body (retry_headers props rc .long err now) br.retryOk ::
          (if br.retryOk then []
           else move_to_failed_queue br body ("Retry scheduling failed: " ++ br.retryErr) now)) ∧
    (∀ br body props rc err now, max_retries ≤ rc →
      schedule_retry br body props rc .long err now =
        move_to_failed_queue br body ("Max retries exceeded. Last error: " ++ err) now) ∧
    (∀ br body props net now raw req m, jsonLoads body = some raw →
      decode_request raw = .ok req →
      extract_post_data req.instagram_url net = .error (.rateLimitError m) →
      process_message br body props net now =
        schedule_retry br body props (get_retry_count props) .long m now ++ [.ack]) := by
  refine ⟨fun _ _ _ => rfl, fun _ _ _ => rfl, fun _ _ _ => rfl, fun _ => rfl,
    fun br body props rc err now h => schedule_retry_low .long err now h,
    fun br body props rc err now h => schedule_retry_high .long err now h,
    fun br body props net now raw req m h1 h2 h3 => ?_⟩
  simp only [process_message, h1, h2, h3]

/-- Witness for C1 at attempt 0: the retry is published to the delayed exchange
with a 5-minute `x-delay`. -/
theorem c1_witness :
    schedule_retry allOkBroker (.valid (.obj igFields)) none 0 .long "err" 5 =
        .publishRetry (.valid (.obj igFields)) (retry_headers none 0 .long "err" 5) true ::
          (if true then []
           else move_to_failed_queue allOkBroker (.valid (.obj igFields))
             ("Retry scheduling failed: " ++ "") 5) ∧
      (retry_headers none 0 .long "err" 5).delay = some 300000 :=
  ⟨c1_rate_limited_backoff.2.2.2.2.1 allOkBroker (.valid (.obj igFields)) none 0 "err" 5
      (by decide),
    c1_rate_limited_backoff.1 none "err" 5⟩

/-- C2: For a `TransientError` failure (any extraction failure that is neither
rate-limited nor a `ValueError`, handled with `delay_type='short'`), the retry
decision follows the short tiered backoff indexed by `min(attempt_count, 2)`
into `[30 s, 5 min, 15 min]` = `[30000, 300000, 900000]` ms, and every
`attempt_count ≥ max_retries` (3) is dead-lettered instead.  The last conjunct
ties the `'short'` delay type to the generic-exception classification inside
`process_message`. -/
theorem c2_transient_backoff :
    (∀ props err now, (retry_headers props 0 .short err now).delay = some 30000) ∧
    (∀ props err now, (retry_headers props 1 .short err now).delay = some 300000) ∧
    (∀ props err now, (retry_headers props 2 .short err now).delay = some 900000) ∧
    (∀ rc, delay_ms .short rc = shortDelays.getD (min rc 2) 0) ∧
    (∀ br body props rc err now, rc < max_retries →
      schedule_retry br body props rc .short err now =
        .publishRetry body (retry_headers props rc .short err now) br.retryOk ::
          (if br.retryOk then []
           else move_to_failed_queue br body ("Retry scheduling failed: " ++ br.retryErr) now)) ∧
    (∀ br body props rc err now, max_retries ≤ rc →
      schedule_retry br body props rc .short err now =
        move_to_failed_queue br body ("Max retries exceeded. Last error: " ++ err) now) ∧
    (∀ br body props net now raw req m, jsonLoads body = some raw →
      decode_request raw = .ok req →
      extract_post_data req.instagram_url net = .error (.genericError m) →
      process_message br body props net now =
        schedule_retry br body props (get_retry_count props) .short m now ++ [.ack]) := by
  refine ⟨fun _ _ _ => rfl, fun _ _ _ => rfl, fun _ _ _ => rfl, fun _ => rfl,
    fun br body props rc err now h => schedule_retry_low .short err now h,
    fun br body props rc err now h => schedule_retry_high .short err now h,
    fun br body props net now raw req m h1 h2 h3 => ?_⟩
  simp only [process_message, h1, h2, h3]

/-- Witness for C2 at attempt 2: the retry is published to the delayed exchange
with a 15-minute `x-delay`. -/
theorem c2_witness :
    schedule_retry allOkBroker (.valid (.obj igFields)) none 2 .short "err" 5 =
        .publishRetry (.valid (.obj igFields)) (retry_headers none 2 .short "err" 5) true ::
          (if true then []
           else move_to_failed_queue allOkBroker (.valid (.obj igFields))
             ("Retry scheduling failed: " ++ "") 5) ∧
      (retry_headers none 2 .short "err" 5).delay = some 900000 :=
  ⟨c2_transient_backoff.2.2.2.2.1 allOkBroker (.valid (.obj igFields)) none 2 "err" 5
      (by decide),
    c2_transient_backoff.2.2.1 none "err" 5⟩

/-- C3: contrary to the claim, an invalid URL shape is NOT dead-lettered on the
first delivery.  `extract_post_data`'s blanket `except Exception` re-wraps the
`ValueError` raised by `_extract_shortcode` into a plain `Exception`, so
`process_message`'s `except ValueError` (the "don't retry" branch) never sees
it and the generic handler schedules a 30 s retry with `x-retry-count = 1`.
A genuinely missing required field, by contrast, does surface as a pydantic
`ValidationError` (a `ValueError`) and is dead-lettered, as the last conjunct
shows. -/
theorem c3_invalid_url_shape_is_retried :
    process_message allOkBroker fbBody none (.ok sampleRec) 1000 =
        [.publishRetry fbBody
          (retry_headers none 0 .short
            "Failed to extract Instagram post: Invalid Instagram URL format: https://www.facebook.com/x"
            1000) true,
         .ack] ∧
      (retry_headers none 0 .short
          "Failed to extract Instagram post: Invalid Instagram URL format: https://www.facebook.com/x"
          1000).retryCount = some 1 ∧
      (process_message allOkBroker fbBody none (.ok sampleRec) 1000).countP
        (fun ev => isDeadLetter ev) = 0 ∧
      process_message allOkBroker (.valid (.obj [])) none (.ok sampleRec) 1000 =
        [.publishDeadLetter
          (dlMsg (.obj []) "1 validation error for CrawlRequest: instagram_url" 1000) true,
         .ack] :=
  ⟨rfl, rfl, rfl, rfl⟩

theorem publishRetry_not_mem_mtf {br : Broker} {body : Body} {e : String} {now : Int}
    {b : Body} {h : Headers} {ok : Bool} :
    Event.publishRetry b h ok ∉ move_to_failed_queue br body e now := by
  intro hm
  rcases mem_move_to_failed_queue hm with ⟨m, o, he⟩
  simp at he

theorem publishResult_not_mem_mtf {br : Broker} {body : Body} {e : String} {now : Int}
    {m : Json} {ok : Bool} :
    Event.publishResult m ok ∉ move_to_failed_queue br body e now := by
  intro hm
  rcases mem_move_to_failed_queue hm with ⟨m2, o, he⟩
  simp at he

theorem publishRetry_mem_schedule_append_ack {br : Broker} {body : Body}
    {props : Option Headers} {rc : Nat} {dt : DelayType} {e : String} {now : Int}
    {b : Body} {h : Headers} {ok : Bool}
    (hmem : Event.publishRetry b h ok ∈ schedule_retry br body props rc dt e now ++ [Event.ack]) :
    h = retry_headers props rc dt e now ∧ b = body ∧ ok = br.retryOk := by
  rcases List.mem_append.mp hmem with hm | hm
  · rcases mem_schedule_retry hm with ⟨m, o, he⟩ | ⟨_, he⟩
    · simp at he
    · injection he with h1 h2 h3
      exact ⟨h2, h1, h3⟩
  · simp at hm

/-- C4: whenever a retry is scheduled, the outgoing headers have
`x-retry-count` = incoming attempt count + 1 (so the count strictly increases
and never resets), `x-first-attempt` preserved when present and otherwise set
to now, and `x-last-error` overwritten with the new error text truncated to at
most 500 characters.  The last conjunct shows every retry publish made by
`process_message` carries exactly such headers for the incoming
`_get_retry_count` value. -/
theorem c4_retry_envelope :
    (∀ props rc dt err now, (retry_headers props rc dt err now).retryCount = some (rc + 1)) ∧
    (∀ props rc dt err now,
      (retry_headers props rc dt err now).firstAttempt =
        some (((props.getD Headers.empty).firstAttempt).getD now)) ∧
    (∀ props rc dt err now,
      (retry_headers props rc dt err now).lastError = some (pyTruncate err 500)) ∧
    (∀ err : String, (pyTruncate err 500).length ≤ 500) ∧
    (∀ br body props net now b h ok,
      Event.publishRetry b h ok ∈ process_message br body props net now →
      ∃ dt e, h = retry_headers props (get_retry_count props) dt e now) := by
  refine ⟨fun _ _ _ _ _ => rfl, fun _ _ _ _ _ => rfl, fun _ _ _ _ _ => rfl,
    fun err => ?_, ?_⟩
  · show (err.data.take 500).length ≤ 500
    exact List.length_take_le 500 err.data
  · intro br body props net now b h ok hmem
    cases body with
    | invalid r m =>
      simp only [process_message, jsonLoads, move_to_failed_queue_invalid,
        List.nil_append, List.mem_singleton] at hmem
      cases hmem
    | valid j =>
      simp only [process_message, jsonLoads] at hmem
      cases hd : decode_request j with
      | error e =>
        simp only [hd] at hmem
        rcases List.mem_append.mp hmem with hm | hm
        · exact absurd hm publishRetry_not_mem_mtf
        · simp at hm
      | ok req =>
        simp only [hd] at hmem
        cases hx : extract_post_data req.instagram_url net with
        | ok rec =>
          simp only [hx] at hmem
          by_cases hro : br.resultOk
          · rw [if_pos hro] at hmem
            simp at hmem
          · rw [if_neg hro] at hmem
            rcases List.mem_cons.mp hmem with he | hm
            · simp at he
            · exact ⟨.short, br.resultErr,
                (publishRetry_mem_schedule_append_ack hm).1⟩
        | error perr =>
          simp only [hx] at hmem
          cases perr with
          | rateLimitError m =>
            exact ⟨.long, m, (publishRetry_mem_schedule_append_ack hmem).1⟩
          | valueError m =>
            rcases List.mem_append.mp hmem with hm | hm
            · exact absurd hm publishRetry_not_mem_mtf
            · simp at hm
          | connectionException m =>
            exact ⟨.short, m, (publishRetry_mem_schedule_append_ack hmem).1⟩
          | genericError m =>
            exact ⟨.short, m, (publishRetry_mem_schedule_append_ack hmem).1⟩

/-- Witness for C4: on the first rate-limited delivery (no incoming headers),
the published retry carries headers for attempt count 0 + 1. -/
theorem c4_witness :
    ∃ dt e,
      retry_headers none 0 .long "Instagram rate limit: 401 Unauthorized" 111 =
        retry_headers none (get_retry_count none) dt e 111 := by
  have htr : process_message allOkBroker (.valid (.obj igFields)) none
      (.connectionException "401 Unauthorized") 111 =
      [.publishRetry (.valid (.obj igFields))
        (retry_headers none 0 .long "Instagram rate limit: 401 Unauthorized" 111) true,
       .ack] := rfl
  exact c4_retry_envelope.2.2.2.2 allOkBroker (.valid (.obj igFields)) none
    (.connectionException "401 Unauthorized") 111 (.valid (.obj igFields))
    (retry_headers none 0 .long "Instagram rate limit: 401 Unauthorized" 111) true
    (by rw [htr]; exact List.mem_cons_self _ _)

/-- C5: contrary to the claim, a delivered message can end acknowledged with
zero terminal outcomes performed.  For a body that is not decodable JSON, the
`except ValueError` branch calls `_move_to_failed_queue`, whose own
`json.loads(original_body)` raises again and is swallowed by its blanket
`except`, so no publish to any queue happens — the trace is a bare ack, even
with a fully healthy broker. -/
theorem c5_ack_without_terminal_outcome :
    process_message allOkBroker
        (.invalid "plain text body" "Expecting value: line 1 column 1 (char 0)")
        none (.ok sampleRec) 42 = [.ack] ∧
      (process_message allOkBroker
        (.invalid "plain text body" "Expecting value: line 1 column 1 (char 0)")
        none (.ok sampleRec) 42).countP (fun ev => isPublish ev) = 0 :=
  ⟨rfl, rfl⟩

/-- C6: contrary to the claim, a body whose bytes are not valid JSON is NOT
dead-lettered: `_move_to_failed_queue` re-parses the undecodable original body,
the re-parse raises, its `except` only logs, and the message is acknowledged
with no dead-letter publish at all — it is silently dropped. -/
theorem c6_undecodable_body_dropped :
    process_message allOkBroker
        (.invalid "not json" "Expecting value: line 1 column 1 (char 0)")
        none (.ok sampleRec) 5 = [.ack] ∧
      (process_message allOkBroker
        (.invalid "not json" "Expecting value: line 1 column 1 (char 0)")
        none (.ok sampleRec) 5).countP (fun ev => isDeadLetter ev) = 0 :=
  ⟨rfl, rfl⟩

theorem schedule_retry_deadletter_of_retry_fail {br : Broker} {j : Json}
    {props : Option Headers} {rc : Nat} (dt : DelayType) (e : String) (now : Int)
    (hrc : rc < max_retries) (hok : br.retryOk = false) :
    ∃ m ok, Event.publishDeadLetter m ok ∈
      schedule_retry br (.valid j) props rc dt e now := by
  rw [schedule_retry_low dt e now hrc, if_neg (by rw [hok]; exact Bool.false_ne_true),
    move_to_failed_queue_valid]
  exact ⟨_, br.deadOk, List.mem_cons_of_mem _ (List.mem_singleton.mpr rfl)⟩

theorem schedule_retry_valid_has_publish (br : Broker) (j : Json)
    (props : Option Headers) (rc : Nat) (dt : DelayType) (e : String) (now : Int) :
    (∃ b h ok, Event.publishRetry b h ok ∈ schedule_retry br (.valid j) props rc dt e now) ∨
      (∃ m ok, Event.publishDeadLetter m ok ∈ schedule_retry br (.valid j) props rc dt e now) := by
  by_cases hrc : rc < max_retries
  · exact Or.inl ⟨_, _, _, by rw [schedule_retry_low dt e now hrc]; exact List.mem_cons_self _ _⟩
  · rw [schedule_retry_high dt e now (by omega), move_to_failed_queue_valid]
    exact Or.inr ⟨_, br.deadOk, List.mem_singleton.mpr rfl⟩

theorem pm_invalid (br : Broker) (r m : String) (props : Option Headers)
    (net : FetchResult) (now : Int) :
    process_message br (.invalid r m) props net now = [.ack] := by
  simp only [process_message, jsonLoads, move_to_failed_queue_invalid, List.nil_append]

theorem pm_decode_error {j : Json} {e : String} (br : Broker) (props : Option Headers)
    (net : FetchResult) (now : Int) (hd : decode_request j = .error e) :
    process_message br (.valid j) props net now =
      move_to_failed_queue br (.valid j) e now ++ [.ack] := by
  simp only [process_message, jsonLoads, hd]

theorem pm_extract_ok {j : Json} {req : CrawlRequest} {rec : RawRecipeData}
    {net : FetchResult} (br : Broker) (props : Option Headers) (now : Int)
    (hd : decode_request j = .ok req)
    (hx : extract_post_data req.instagram_url net = .ok rec) :
    process_message br (.valid j) props net now =
      if br.resultOk = true then [.publishResult (encodeRawRecipeData rec) true, .ack]
      else
        .publishResult (encodeRawRecipeData rec) false ::
          (schedule_retry br (.valid j) props (get_retry_count props) .short
              br.resultErr now ++ [.ack]) := by
  simp only [process_message, jsonLoads, hd, hx]

theorem pm_rate_limited {j : Json} {req : CrawlRequest} {net : FetchResult} {m : String}
    (br : Broker) (props : Option Headers) (now : Int)
    (hd : decode_request j = .ok req)
    (hx : extract_post_data req.instagram_url net = .error (.rateLimitError m)) :
    process_message br (.valid j) props net now =
      schedule_retry br (.valid j) props (get_retry_count props) .long m now ++ [.ack] := by
  simp only [process_message, jsonLoads, hd, hx]

theorem pm_value_error {j : Json} {req : CrawlRequest} {net : FetchResult} {m : String}
    (br : Broker) (props : Option Headers) (now : Int)
    (hd : decode_request j = .ok req)
    (hx : extract_post_data req.instagram_url net = .error (.valueError m)) :
    process_message br (.valid j) props net now =
      move_to_failed_queue br (.valid j) m now ++ [.ack] := by
  simp only [process_message, jsonLoads, hd, hx]

theorem pm_conn_error {j : Json} {req : CrawlRequest} {net : FetchResult} {m : String}
    (br : Broker) (props : Option Headers) (now : Int)
    (hd : decode_request j = .ok req)
    (hx : extract_post_data req.instagram_url net = .error (.connectionException m)) :
    process_message br (.valid j) props net now =
      schedule_retry br (.valid j) props (get_retry_count props) .short m now ++ [.ack] := by
  simp only [process_message, jsonLoads, hd, hx]

theorem pm_generic_error {j : Json} {req : CrawlRequest} {net : FetchResult} {m : String}
    (br : Broker) (props : Option Headers) (now : Int)
    (hd : decode_request j = .ok req)
    (hx : extract_post_data req.instagram_url net = .error (.genericError m)) :
    process_message br (.valid j) props net now =
      schedule_retry br (.valid j) props (get_retry_count props) .short m now ++ [.ack] := by
  simp only [process_message, jsonLoads, hd, hx]

/-- The three C7 conjuncts, verified for a dead-letter trace `mtf ++ [ack]`. -/
theorem c7_mtf_branch (br : Broker) (body : Body) (e : String) (now : Int) :
    ((move_to_failed_queue br body e now ++ [Event.ack]).countP (fun ev => isAck ev) = 1 ∧
      (move_to_failed_queue br body e now ++ [Event.ack]).getLast? = some .ack) ∧
    (∀ b h, Event.publishRetry b h false ∈ move_to_failed_queue br body e now ++ [Event.ack] →
      ∃ m ok, Event.publishDeadLetter m ok ∈ move_to_failed_queue br body e now ++ [Event.ack]) ∧
    (∀ m, Event.publishResult m false ∈ move_to_failed_queue br body e now ++ [Event.ack] →
      (∃ b h ok, Event.publishRetry b h ok ∈ move_to_failed_queue br body e now ++ [Event.ack]) ∨
        (∃ m2 ok, Event.publishDeadLetter m2 ok ∈ move_to_failed_queue br body e now ++ [Event.ack])) := by
  refine ⟨⟨?_, List.getLast?_concat _⟩, ?_, ?_⟩
  · rw [List.countP_append, countP_isAck_move_to_failed_queue]; rfl
  · intro b h hm
    rcases List.mem_append.mp hm with hm | hm
    · exact absurd hm publishRetry_not_mem_mtf
    · simp at hm
  · intro m hm
    rcases List.mem_append.mp hm with hm | hm
    · exact absurd hm publishResult_not_mem_mtf
    · simp at hm

/-- The three C7 conjuncts, verified for a retry trace `schedule_retry ++ [ack]`
on a decodable body. -/
theorem c7_retry_branch (br : Broker) (j : Json) (props : Option Headers) (rc : Nat)
    (dt : DelayType) (e : String) (now : Int) :
    ((schedule_retry br (.valid j) props rc dt e now ++ [Event.ack]).countP (fun ev => isAck ev) = 1 ∧
      (schedule_retry br (.valid j) props rc dt e now ++ [Event.ack]).getLast? = some .ack) ∧
    (∀ b h, Event.publishRetry b h false ∈ schedule_retry br (.valid j) props rc dt e now ++ [Event.ack] →
      ∃ m ok, Event.publishDeadLetter m ok ∈ schedule_retry br (.valid j) props rc dt e now ++ [Event.ack]) ∧
    (∀ m, Event.publishResult m false ∈ schedule_retry br (.valid j) props rc dt e now ++ [Event.ack] →
      (∃ b h ok, Event.publishRetry b h ok ∈ schedule_retry br (.valid j) props rc dt e now ++ [Event.ack]) ∨
        (∃ m2 ok, Event.publishDeadLetter m2 ok ∈ schedule_retry br (.valid j) props rc dt e now ++ [Event.ack])) := by
  refine ⟨⟨?_, List.getLast?_concat _⟩, ?_, ?_⟩
  · rw [List.countP_append, countP_isAck_schedule_retry]; rfl
  · intro b h hm
    obtain ⟨hh, hb, hok⟩ := publishRetry_mem_schedule_append_ack hm
    have hrc : rc < max_retries := by
      rcases List.mem_append.mp hm with hm2 | hm2
      · rcases mem_schedule_retry hm2 with ⟨_, _, he2⟩ | ⟨hlt, _⟩
        · simp at he2
        · exact hlt
      · simp at hm2
    obtain ⟨m2, ok2, hdl⟩ := schedule_retry_deadletter_of_retry_fail dt e now hrc hok.symm
    exact ⟨m2, ok2, List.mem_append_left _ hdl⟩
  · intro m hm
    rcases List.mem_append.mp hm with hm | hm
    · rcases mem_schedule_retry hm with ⟨_, _, he⟩ | ⟨_, he⟩ <;> simp at he
    · simp at hm

/-- C7 (amended): the delivery is always acknowledged, exactly once and as the
final step.  If the delayed-exchange publish fails, a fallback dead-letter
publish is attempted.  If the result-queue publish fails, however, the worker
does NOT go to the dead-letter queue directly: the failure lands in the generic
`except Exception` handler, which schedules a transient retry (dead-lettering
only once retries are exhausted, or as fallback if the retry publish itself
fails).  A failing dead-letter publish is only logged. -/
theorem c7_publish_failure_handling :
    ∀ br body props net now,
      ((process_message br body props net now).countP (fun ev => isAck ev) = 1 ∧
        (process_message br body props net now).getLast? = some .ack) ∧
      (∀ b h, Event.publishRetry b h false ∈ process_message br body props net now →
        ∃ m ok, Event.publishDeadLetter m ok ∈ process_message br body props net now) ∧
      (∀ m, Event.publishResult m false ∈ process_message br body props net now →
        (∃ b h ok, Event.publishRetry b h ok ∈ process_message br body props net now) ∨
          (∃ m2 ok, Event.publishDeadLetter m2 ok ∈ process_message br body props net now)) := by
  intro br body props net now
  cases body with
  | invalid r m =>
    rw [pm_invalid]
    exact ⟨⟨rfl, rfl⟩, fun b h hm => by simp at hm, fun m hm => by simp at hm⟩
  | valid j =>
    cases hd : decode_request j with
    | error e =>
      rw [pm_decode_error br props net now hd]
      exact c7_mtf_branch br (.valid j) e now
    | ok req =>
      cases hx : extract_post_data req.instagram_url net with
      | ok rec =>
        rw [pm_extract_ok br props now hd hx]
        by_cases hro : br.resultOk = true
        · rw [if_pos hro]
          exact ⟨⟨rfl, rfl⟩, fun b h hm => by simp at hm, fun m hm => by simp at hm⟩
        · rw [if_neg hro]
          refine ⟨⟨?_, ?_⟩, ?_, ?_⟩
          · rw [List.countP_cons_of_neg _ _ (by simp [isAck])]
            exact (c7_retry_branch br j props (get_retry_count props) .short
              br.resultErr now).1.1
          · rw [List.getLast?_cons, (c7_retry_branch br j props (get_retry_count props)
              .short br.resultErr now).1.2]
            rfl
          · intro b h hm
            rcases List.mem_cons.mp hm with he | hm
            · simp at he
            · obtain ⟨m2, ok2, hdl⟩ := (c7_retry_branch br j props (get_retry_count props)
                .short br.resultErr now).2.1 b h hm
              exact ⟨m2, ok2, List.mem_cons_of_mem _ hdl⟩
          · intro m hm
            rcases schedule_retry_valid_has_publish br j props
                (get_retry_count props) .short br.resultErr now with
              ⟨b2, h2, ok2, hp⟩ | ⟨m2, ok2, hp⟩
            · exact Or.inl ⟨b2, h2, ok2, List.mem_cons_of_mem _ (List.mem_append_left _ hp)⟩
            · exact Or.inr ⟨m2, ok2, List.mem_cons_of_mem _ (List.mem_append_left _ hp)⟩
      | error perr =>
        cases perr with
        | rateLimitError m =>
          rw [pm_rate_limited br props now hd hx]
          exact c7_retry_branch br j props (get_retry_count props) .long m now
        | valueError m =>
          rw [pm_value_error br props now hd hx]
          exact c7_mtf_branch br (.valid j) m now
        | connectionException m =>
          rw [pm_conn_error br props now hd hx]
          exact c7_retry_branch br j props (get_retry_count props) .short m now
        | genericError m =>
          rw [pm_generic_error br props now hd hx]
          exact c7_retry_branch br j props (get_retry_count props) .short m now


/-- Witness for C7: a failed delayed-exchange publish on a rate-limited
delivery is followed by a dead-letter publish attempt. -/
theorem c7_witness :
    ∃ m ok, Event.publishDeadLetter m ok ∈
      process_message ⟨true, false, true, "", "exchange down"⟩ (.valid (.obj igFields))
        none (.connectionException "429 rate limit") 9 := by
  have htr : process_message ⟨true, false, true, "", "exchange down"⟩
      (.valid (.obj igFields)) none (.connectionException "429 rate limit") 9 =
      [.publishRetry (.valid (.obj igFields))
          (retry_headers none 0 .long "Instagram rate limit: 429 rate limit" 9) false,
        .publishDeadLetter
          (dlMsg (.obj igFields) ("Retry scheduling failed: " ++ "exchange down") 9) true,
        .ack] := rfl
  exact (c7_publish_failure_handling ⟨true, false, true, "", "exchange down"⟩
      (.valid (.obj igFields)) none (.connectionException "429 rate limit") 9).2.1
    (.valid (.obj igFields))
    (retry_headers none 0 .long "Instagram rate limit: 429 rate limit" 9)
    (by rw [htr]; exact List.mem_cons_self _ _)

/-- C7 counterexample: with a healthy delayed exchange, a failed result-queue
publish leads to a scheduled retry and the worker never attempts a dead-letter
publish — refuting the claim that a failed side-effect publish is always
followed by a best-effort dead-letter fallback. -/
theorem c7_counterexample :
    process_message ⟨false, true, true, "broker down", ""⟩ (.valid (.obj igFields))
        none (.ok sampleRec) 7 =
      [.publishResult (encodeRawRecipeData
          { sampleRec with url := "https://www.instagram.com/p/ABC/" }) false,
        .publishRetry (.valid (.obj igFields)) (retry_headers none 0 .short "broker down" 7) true,
        .ack] ∧
      (process_message ⟨false, true, true, "broker down", ""⟩ (.valid (.obj igFields))
        none (.ok sampleRec) 7).countP (fun ev => isDeadLetter ev) = 0 :=
  ⟨rfl, rfl⟩

/-- C8: a JSON array whose first element is an object decodes exactly as that
first element decoded alone; the concrete instagram bodies decode identically
(to a validated request with default `request_id`/`priority`); and an empty
array, or an array whose first element is not an object, is rejected with the
source's malformed-envelope `ValueError`. -/
theorem c8_array_shim :
    (∀ f rest, decode_request (.arr (.obj f :: rest)) = decode_request (.obj f)) ∧
    decode_request (.arr [.obj igFields]) = decode_request (.obj igFields) ∧
    decode_request (.obj igFields) = .ok ⟨"https://www.instagram.com/p/ABC/", none, 1⟩ ∧
    decode_request (.arr []) =
      .error "Invalid message format: expected dict or list of dicts, got <class \x27list\x27>" ∧
    (∀ x xs, (∀ f, x ≠ Json.obj f) →
      decode_request (.arr (x :: xs)) =
        .error "Invalid message format: expected dict or list of dicts, got <class \x27list\x27>") := by
  refine ⟨fun f rest => rfl, rfl, rfl, rfl, fun x xs hx => ?_⟩
  cases x with
  | obj f => exact absurd rfl (hx f)
  | null => rfl
  | bool b => rfl
  | num n => rfl
  | str s => rfl
  | arr ys => rfl

/-- Witness for C8: an array headed by a number is rejected as malformed. -/
theorem c8_witness :
    decode_request (.arr [.num 5]) =
      .error "Invalid message format: expected dict or list of dicts, got <class \x27list\x27>" :=
  c8_array_shim.2.2.2.2 (.num 5) [] (fun _ hf => Json.noConfusion hf)

/-- Replace a failure record's `original_message` payload by `null`
(everything else unchanged), to compare JSON values up to the original
envelope they embed. -/
def stripOriginJson : Json → Json
  | .obj fields =>
    .obj (fields.map (fun p => if p.1 == "original_message" then (p.1, Json.null) else p))
  | j => j

/-- Replace the original body carried verbatim by a retry publish, and the
`original_message` field of a dead-letter record, by fixed tokens: two traces
equal up to `stripOrigin` perform the same processing and differ only in the
envelope they carry along. -/
def stripOrigin : Event → Event
  | .publishRetry _ h ok => .publishRetry (.valid .null) h ok
  | .publishDeadLetter m ok => .publishDeadLetter (stripOriginJson m) ok
  | e => e

theorem mtf_strip (br : Broker) (j₁ j₂ : Json) (e : String) (now : Int) :
    (move_to_failed_queue br (.valid j₁) e now).map stripOrigin =
      (move_to_failed_queue br (.valid j₂) e now).map stripOrigin := rfl

theorem sched_strip (br : Broker) (j₁ j₂ : Json) (props : Option Headers) (rc : Nat)
    (dt : DelayType) (e : String) (now : Int) :
    (schedule_retry br (.valid j₁) props rc dt e now).map stripOrigin =
      (schedule_retry br (.valid j₂) props rc dt e now).map stripOrigin := by
  by_cases hrc : rc < max_retries
  · rw [schedule_retry_low dt e now hrc, schedule_retry_low dt e now hrc]
    by_cases hok : br.retryOk = true
    · rw [if_pos hok, if_pos hok]
      rfl
    · rw [if_neg hok, if_neg hok]
      simp only [List.map_cons, stripOrigin]
      rw [mtf_strip br j₁ j₂]
  · rw [schedule_retry_high dt e now (by omega), schedule_retry_high dt e now (by omega)]
    exact mtf_strip ..

/-- C10: for an inbound array body, only the first element determines the
decoded request — the remaining elements are discarded: the decode result
ignores them entirely, and the processing trace agrees, event for event, with
the trace of the first element delivered alone (up to the original envelope
carried verbatim inside retry republishes and dead-letter records). -/
theorem c10_rest_discarded :
    (∀ f rest, decode_request (.arr (.obj f :: rest)) = decode_request (.obj f)) ∧
    (∀ br props net now f rest,
      (process_message br (.valid (.arr (.obj f :: rest))) props net now).map stripOrigin =
        (process_message br (.valid (.obj f)) props net now).map stripOrigin) := by
  refine ⟨fun f rest => rfl, fun br props net now f rest => ?_⟩
  have hdeq : decode_request (.arr (.obj f :: rest)) = decode_request (.obj f) := rfl
  cases hd : decode_request (.obj f) with
  | error e =>
    rw [pm_decode_error br props net now (hdeq.trans hd), pm_decode_error br props net now hd,
      List.map_append, List.map_append, mtf_strip br (.arr (.obj f :: rest)) (.obj f)]
  | ok req =>
    cases hx : extract_post_data req.instagram_url net with
    | ok rec =>
      rw [pm_extract_ok br props now (hdeq.trans hd) hx, pm_extract_ok br props now hd hx]
      by_cases hro : br.resultOk = true
      · rw [if_pos hro, if_pos hro]
      · rw [if_neg hro, if_neg hro]
        simp only [List.map_cons, List.map_append, stripOrigin]
        rw [sched_strip br (.arr (.obj f :: rest)) (.obj f)]
    | error perr =>
      cases perr with
      | rateLimitError m =>
        rw [pm_rate_limited br props now (hdeq.trans hd) hx, pm_rate_limited br props now hd hx,
          List.map_append, List.map_append, sched_strip br (.arr (.obj f :: rest)) (.obj f)]
      | valueError m =>
        rw [pm_value_error br props now (hdeq.trans hd) hx, pm_value_error br props now hd hx,
          List.map_append, List.map_append, mtf_strip br (.arr (.obj f :: rest)) (.obj f)]
      | connectionException m =>
        rw [pm_conn_error br props now (hdeq.trans hd) hx, pm_conn_error br props now hd hx,
          List.map_append, List.map_append, sched_strip br (.arr (.obj f :: rest)) (.obj f)]
      | genericError m =>
        rw [pm_generic_error br props now (hdeq.trans hd) hx, pm_generic_error br props now hd hx,
          List.map_append, List.map_append, sched_strip br (.arr (.obj f :: rest)) (.obj f)]

theorem digitVal_digitChar (d : Nat) (h : d < 10) : digitVal (digitChar d) = some d := by
  interval_cases d <;> rfl

/-- The datetime ⇄ ISO-8601 conversion is lossless (to the second) on every
valid python datetime. -/
theorem parseIso_isoformat (t : PyDateTime) (h : t.valid) :
    parseIso (isoformat t) = some t := by
  obtain ⟨y, mo, d, hh, mi, s⟩ := t
  have g : 1 ≤ y ∧ y ≤ 9999 ∧ 1 ≤ mo ∧ mo ≤ 12 ∧ 1 ≤ d ∧ d ≤ 31 ∧ hh ≤ 23 ∧
      mi ≤ 59 ∧ s ≤ 59 := h
  obtain ⟨g1, g2, g3, g4, g5, g6, g7, g8, g9⟩ := g
  simp only [isoformat, fourDigits, twoDigits, List.cons_append, List.nil_append, parseIso]
  rw [digitVal_digitChar _ (by omega), digitVal_digitChar _ (by omega),
    digitVal_digitChar _ (by omega), digitVal_digitChar _ (by omega),
    digitVal_digitChar _ (by omega), digitVal_digitChar _ (by omega),
    digitVal_digitChar _ (by omega), digitVal_digitChar _ (by omega),
    digitVal_digitChar _ (by omega), digitVal_digitChar _ (by omega),
    digitVal_digitChar _ (by omega), digitVal_digitChar _ (by omega),
    digitVal_digitChar _ (by omega), digitVal_digitChar _ (by omega)]
  show some (⟨((y / 1000 % 10 * 10 + y / 100 % 10) * 10 + y / 10 % 10) * 10 + y % 10,
    mo / 10 % 10 * 10 + mo % 10, d / 10 % 10 * 10 + d % 10, hh / 10 % 10 * 10 + hh % 10,
    mi / 10 % 10 * 10 + mi % 10, s / 10 % 10 * 10 + s % 10⟩ : PyDateTime) =
      some ⟨y, mo, d, hh, mi, s⟩
  simp only [Option.some.injEq, PyDateTime.mk.injEq]
  refine ⟨?_, ?_, ?_, ?_, ?_, ?_⟩ <;> omega

theorem decodeStrs_map (l : List String) : decodeStrs (l.map Json.str) = some l := by
  induction l with
  | nil => rfl
  | cons a rest ih => simp [decodeStrs, ih]

theorem decodeOptInt_enc (o : Option Int) :
    decodeOptInt (some ((o.map Json.num).getD .null)) = some o := by
  cases o <;> rfl

theorem decodeOptStr_enc (o : Option String) :
    decodeOptStr (some ((o.map Json.str).getD .null)) = some o := by
  cases o <;> rfl

/-- C9: encoding an extracted record into the result-queue body and decoding
that body back preserves every field, the timestamp included: its
datetime-to-ISO-8601 conversion round-trips losslessly to the second for every
valid datetime. -/
theorem c9_record_roundtrip (r : RawRecipeData) (h : r.timestamp.valid) :
    decodeRawRecipeData (encodeRawRecipeData r) = some r := by
  obtain ⟨url, caption, media, author, ts, tags, ments, likes, comments, topc⟩ := r
  have hts : parseIso (isoformat ts) = some ts := parseIso_isoformat _ h
  simp [encodeRawRecipeData, decodeRawRecipeData, dictGet, asStr,
    decodeStrList, hts, decodeStrs_map, decodeOptInt_enc, decodeOptStr_enc]

/-- Witness for C9: the sample record round-trips through the wire encoding. -/
theorem c9_witness :
    decodeRawRecipeData (encodeRawRecipeData
        { sampleRec with url := "https://www.instagram.com/p/ABC/" }) =
      some { sampleRec with url := "https://www.instagram.com/p/ABC/" } :=
  c9_record_roundtrip { sampleRec with url := "https://www.instagram.com/p/ABC/" }
    (by decide)

end Recify
